import Mathlib

/-!
Verification of the session-lifecycle core of `src/src/run_the_test.ts`
(repository dconeybe/IdbVersionIssue9056).

The TypeScript core drives one IndexedDB session: `openDb` issues an open
request and reacts to the four request-level events (`error`, `success`,
`blocked`, `upgradeneeded`); `IndexedDbWrapper` holds the session state as a
tagged sum (`IndexedDbWrapperOpenedState` / `IndexedDbWrapperClosedState`);
`IndexedDbWrapper.close` drains the connection through a close-barrier
transaction before transitioning to Closed; `runTheTest` is the driver.

The embedding is event-trace based: the asynchronous signals delivered by
the browser are lists of events, and each TypeScript event handler becomes a Lean function on
an explicit run state.  One-shot promise resolution is modelled explicitly.
-/

namespace IdbTest

/-- An open IndexedDB connection, as observed by this code: its database name
and its reported version (`db.name`, `db.version`). -/
structure IDBDatabase where
  name : String
  version : Nat
deriving DecidableEq, Repr

/-- The error object carried by a failed open request (`openDbRequest.error`). -/
structure DomError where
  name : String
  message : String
deriving DecidableEq, Repr

/-- The database name constant passed to `window.indexedDB.open`. -/
def databaseName : String := "f6b48yt8wc"

/-- Constant `IDB_VERSION = 66`, the version passed to `indexedDB.open`. -/
def IDB_VERSION : Nat := 66

/-- The deterministic container-naming function used both by the
upgradeneeded handler (`db.createObjectStore`) and by `close`
(`db.transaction`): the template string `ost6hhg47t_` followed by the
version number. -/
def objectStoreName (version : Nat) : String :=
  "ost6hhg47t_" ++ toString version

/-- The connection observed in the version-66 scenario: the named database
at version `IDB_VERSION`. -/
def db66 : IDBDatabase := { name := databaseName, version := IDB_VERSION }

/-- A sample native error, as raised when the requested version is lower
than the on-disk version. -/
def versionError : DomError :=
  { name := "VersionError", message := "requested version is too low" }

/-- Class `IndexedDbWrapperOpenedState`: the Opened variant of the session state.
It owns the connection `db` and the read-only field `initialDbVersion`. -/
structure IndexedDbWrapperOpenedState where
  db : IDBDatabase
  initialDbVersion : Nat
deriving DecidableEq, Repr

/-- The `IndexedDbWrapperOpenedState` constructor: captures
`this.initialDbVersion = db.version` at construction time. -/
def IndexedDbWrapperOpenedState.ofDb (db : IDBDatabase) :
    IndexedDbWrapperOpenedState :=
  { db := db, initialDbVersion := db.version }

/-- Type `IndexedDbWrapperState`, the union of `IndexedDbWrapperOpenedState`
and `IndexedDbWrapperClosedState`: the tagged sum of the two session states.  The
Closed variant (`IndexedDbWrapperClosedState`) carries no fields, so holds no
connection reference. -/
inductive IndexedDbWrapperState where
  | opened (s : IndexedDbWrapperOpenedState)
  | closed
deriving DecidableEq, Repr

/-- The connection reference held by a session state: the `db` field of the
Opened variant; the Closed variant has none. -/
def IndexedDbWrapperState.connection :
    IndexedDbWrapperState → Option IDBDatabase
  | .opened s => some s.db
  | .closed => none

/-- Class `IndexedDbWrapper`: session id plus current state. -/
structure IndexedDbWrapper where
  id : String
  state : IndexedDbWrapperState
deriving DecidableEq, Repr

/-- The connection-level events the `IndexedDbWrapper` constructor listens
for on the open `IDBDatabase`. -/
inductive DbEvent where
  | error
  | close
  | abort
  | versionchange
deriving DecidableEq, Repr

/-- The log line emitted by each connection-level event listener registered
in the `IndexedDbWrapper` constructor. -/
def dbEventLogLine : DbEvent → String
  | .error => "dyqggzenem IDBDatabase error"
  | .close => "acagpcy87g IDBDatabase close"
  | .abort => "kf999sz8h7 IDBDatabase abort"
  | .versionchange => "nwdzxfa2n3 IDBDatabase versionchange"

/-- The `IndexedDbWrapper` constructor: sets the state to a fresh Opened
state for `db`, and registers listeners for the four connection-level events
(in source order: `error`, `close`, `abort`, `versionchange`).  Returns the
constructed wrapper together with the list of registered events. -/
def IndexedDbWrapper.new (id : String) (db : IDBDatabase) :
    IndexedDbWrapper × List DbEvent :=
  ({ id := id, state := .opened (IndexedDbWrapperOpenedState.ofDb db) },
   [.error, .close, .abort, .versionchange])

/-- Effect of one connection-level event on a session: each of the four
listeners only calls `log`, so the state is returned unchanged together with
the single log line emitted. -/
def handleDbEvent (st : IndexedDbWrapperState) (e : DbEvent) :
    IndexedDbWrapperState × List String :=
  (st, [dbEventLogLine e])

/-! Close barrier -/

/-- The three transaction events the close barrier listens for
(`abort`, `complete`, `error` on the drain transaction). -/
inductive TxSignal where
  | complete
  | error
  | abort
deriving DecidableEq, Repr

/-- One-shot promise state for the `new Promise<void>(resolve => ...)` inside
`close`: once resolved, further `resolve` calls are ignored. -/
structure OneShot where
  value : Option TxSignal
deriving DecidableEq, Repr

/-- A call to `resolve` with the transaction signal that triggered it:
recorded only if the promise is still pending. -/
def OneShot.resolve (s : OneShot) (v : TxSignal) : OneShot :=
  match s.value with
  | some _ => s
  | none => { value := some v }

/-- Running the close-barrier promise over the stream of transaction events:
every listener (`abort`, `complete`, `error`) calls `resolve`, through the
one-shot promise.  Result: the signal the promise resolved with, or `none`
if no terminal event ever arrived (promise still pending). -/
def runCloseBarrier (txEvents : List TxSignal) : Option TxSignal :=
  (txEvents.foldl OneShot.resolve { value := none }).value

/-- The synchronous actions performed by the close barrier, in source order:
open the drain transaction on the container named for `initialDbVersion`,
register the three terminal listeners (`abort`, `complete`, `error`), then
issue the native `db.close()`. -/
inductive CloseAction where
  | openTransaction (storeName : String)
  | addTxListener (sig : TxSignal)
  | nativeClose
deriving DecidableEq, Repr

/-- The action sequence of the close barrier, exactly as the body of the
`new Promise` executor in `IndexedDbWrapper.close` performs it. -/
def closeBarrierActions (initialDbVersion : Nat) : List CloseAction :=
  [ .openTransaction (objectStoreName initialDbVersion),
    .addTxListener .abort,
    .addTxListener .complete,
    .addTxListener .error,
    .nativeClose ]

/-- Method `IndexedDbWrapper.close`, given the stream of terminal events of the
drain transaction.  Returns the synchronous actions performed and the
wrapper once the promise returned by `close()` resolves — `none` when the barrier never
received a terminal signal, in which case `close()` has not yet returned and
the state is still untouched.

Mirrors the source: early return if the state is `closed` (no actions, no
barrier); otherwise run the barrier, and only after it resolves assign
`this.#state = new IndexedDbWrapperClosedState()`. -/
def IndexedDbWrapper.close (w : IndexedDbWrapper)
    (txEvents : List TxSignal) :
    List CloseAction × Option IndexedDbWrapper :=
  match w.state with
  | .closed => ([], some w)
  | .opened s =>
    match runCloseBarrier txEvents with
    | none => (closeBarrierActions s.initialDbVersion, none)
    | some _ =>
      (closeBarrierActions s.initialDbVersion,
       some { w with state := .closed })

/-! Session state machine -/

/-- Anything that can touch the state of a session after construction: a
`close()` call (with the event stream of the drain transaction) or one of the four
connection-level events. -/
inductive SessionOp where
  | closeCall (txEvents : List TxSignal)
  | dbEvent (e : DbEvent)

/-- One step of the session state machine: `close()` transitions to Closed
once its barrier resolves (and leaves the state untouched while the barrier
is pending or when already Closed); connection-level events never change the
state. -/
def sessionStep (st : IndexedDbWrapperState) : SessionOp → IndexedDbWrapperState
  | .closeCall txEvents =>
    match (IndexedDbWrapper.close { id := "", state := st } txEvents).2 with
    | none => st
    | some w' => w'.state
  | .dbEvent e => (handleDbEvent st e).1

/-- Iterated session steps over a list of operations. -/
def sessionSteps (st : IndexedDbWrapperState) (ops : List SessionOp) :
    IndexedDbWrapperState :=
  ops.foldl sessionStep st

/-! Open protocol, the `openDb` function -/

/-- The four asynchronous signals an open request can deliver, with the data
each handler reads from the event. -/
inductive OpenSignal where
  | error (e : DomError)
  | success (db : IDBDatabase)
  | blocked (oldVersion : Nat) (newVersion : Option Nat)
  | upgradeneeded (db : IDBDatabase) (oldVersion : Nat) (newVersion : Option Nat)
deriving DecidableEq, Repr

/-- Terminal signals of the open request: `success` and `error` (the only
handlers that settle the promise returned by `openDb`). -/
def OpenSignal.isTerminal : OpenSignal → Bool
  | .error _ => true
  | .success _ => true
  | .blocked _ _ => false
  | .upgradeneeded _ _ _ => false

/-- The observable state of one `openDb` call: the settled value of the
returned promise (`none` while pending), the object stores created so far,
and how many `IndexedDbWrapper` objects have been constructed. -/
structure OpenDbRun where
  settled : Option (Except DomError IndexedDbWrapper)
  created : List String
  sessionsConstructed : Nat
deriving Repr

/-- State of an `openDb` call just after issuing the request: promise
pending, nothing created, no wrapper constructed. -/
def OpenDbRun.init : OpenDbRun :=
  { settled := none, created := [], sessionsConstructed := 0 }

/-- Settling the promise returned by `openDb`: one-shot — `resolve` and
`reject` are ignored once the promise is settled. -/
def settlePromise (r : OpenDbRun) (v : Except DomError IndexedDbWrapper) :
    OpenDbRun :=
  match r.settled with
  | some _ => r
  | none => { r with settled := some v }

/-- One open-request event, dispatched to the handler `openDb` registered for
it:
* `error`: log, then `reject(error)`;
* `success`: log, construct `new IndexedDbWrapper(id, db)` and `resolve` it;
* `blocked`: log only;
* `upgradeneeded`: log, then `db.createObjectStore` of the container named
  for `db.version`. -/
def handleOpenSignal (id : String) (r : OpenDbRun) : OpenSignal → OpenDbRun
  | .error e => settlePromise r (.error e)
  | .success db =>
    settlePromise
      { r with sessionsConstructed := r.sessionsConstructed + 1 }
      (.ok (IndexedDbWrapper.new id db).1)
  | .blocked _ _ => r
  | .upgradeneeded db _ _ =>
    { r with created := r.created ++ [objectStoreName db.version] }

/-- A whole `openDb` call: fold the delivered signals over the handlers,
starting from the just-issued request. -/
def openDbRun (id : String) (signals : List OpenSignal) : OpenDbRun :=
  signals.foldl (handleOpenSignal id) OpenDbRun.init

/-! Test driver, the `runTheTest` function -/

/-- The ordered actions of one `runTheTest` run. -/
inductive DriverAction where
  | openCall
  | openResolved
  | awaitAbortSignal
  | closeCall
  | closeResolved
deriving DecidableEq, Repr

/-- Function `runTheTest`, as a function of the outcome of `await openDb(IDB_VERSION)`:
if the open rejects, the rejection propagates out of the `async` function and
nothing further runs; if it resolves, the driver awaits the abort promise and
then awaits `idb.close()`.  Returns the action trace of the driver and the
propagated error, if any. -/
def runTheTest (openOutcome : Except DomError IndexedDbWrapper) :
    List DriverAction × Option DomError :=
  match openOutcome with
  | .error e => ([.openCall], some e)
  | .ok _ =>
    ([.openCall, .openResolved, .awaitAbortSignal, .closeCall,
      .closeResolved], none)

/-! Lemmas about the close barrier -/

theorem OneShot.foldl_resolve_some (l : List TxSignal) (v : TxSignal) :
    l.foldl OneShot.resolve { value := some v } = { value := some v } := by
  induction l with
  | nil => rfl
  | cons a l ih => simpa [OneShot.resolve] using ih

theorem runCloseBarrier_eq_head (l : List TxSignal) :
    runCloseBarrier l = l.head? := by
  cases l with
  | nil => rfl
  | cons a l =>
    simp [runCloseBarrier, OneShot.resolve, OneShot.foldl_resolve_some]

theorem sessionStep_closed (op : SessionOp) :
    sessionStep .closed op = .closed := by
  cases op <;> simp [sessionStep, IndexedDbWrapper.close, handleDbEvent]

theorem sessionStep_id_or_closes (st : IndexedDbWrapperState)
    (op : SessionOp) :
    sessionStep st op = st ∨
      (∃ s, st = .opened s ∧ sessionStep st op = .closed) := by
  cases op with
  | dbEvent e => exact Or.inl rfl
  | closeCall txEvents =>
    cases st with
    | closed => exact Or.inl (sessionStep_closed _)
    | opened s =>
      cases h : runCloseBarrier txEvents with
      | none => exact Or.inl (by simp [sessionStep, IndexedDbWrapper.close, h])
      | some sig =>
        exact Or.inr ⟨s, rfl, by simp [sessionStep, IndexedDbWrapper.close, h]⟩

theorem sessionSteps_closed (ops : List SessionOp) :
    sessionSteps .closed ops = .closed := by
  induction ops with
  | nil => rfl
  | cons op ops ih =>
    simpa [sessionSteps, sessionStep_closed] using ih

theorem sessionSteps_id_or_closes (st : IndexedDbWrapperState)
    (ops : List SessionOp) :
    sessionSteps st ops = st ∨ sessionSteps st ops = .closed := by
  induction ops generalizing st with
  | nil => exact Or.inl rfl
  | cons op ops ih =>
    have hstep : sessionSteps st (op :: ops)
        = sessionSteps (sessionStep st op) ops := rfl
    rcases sessionStep_id_or_closes st op with h | ⟨s, _, h⟩
    · rw [hstep, h]; exact ih st
    · rw [hstep, h, sessionSteps_closed]; exact Or.inr rfl

/-! Claims about the close path -/

/-- C1: for a session in the Opened state, `close()` performs exactly the
close-barrier action sequence — the drain transaction is opened on the
container named for `initialDbVersion`, and the listeners for all three
terminal transaction signals are registered strictly before the native
`db.close()` call; the barrier promise settles with the first terminal
signal of the stream (single-resolution race, later signals ignored); the
promise returned by `close()` resolves iff the barrier reached a terminal
outcome, and only then is the state set to Closed. -/
theorem close_barrier_correct (w : IndexedDbWrapper)
    (s : IndexedDbWrapperOpenedState) (hw : w.state = .opened s)
    (txEvents : List TxSignal) :
    (w.close txEvents).1 = closeBarrierActions s.initialDbVersion ∧
    (∃ pre, closeBarrierActions s.initialDbVersion
        = pre ++ [CloseAction.nativeClose] ∧
      CloseAction.openTransaction (objectStoreName s.initialDbVersion) ∈ pre ∧
      ∀ sig : TxSignal, CloseAction.addTxListener sig ∈ pre) ∧
    runCloseBarrier txEvents = txEvents.head? ∧
    ((w.close txEvents).2 ≠ none ↔ txEvents ≠ []) ∧
    (∀ w', (w.close txEvents).2 = some w' → w'.state = .closed) := by
  obtain ⟨id, st⟩ := w
  simp only at hw
  subst hw
  refine ⟨?_, ?_, runCloseBarrier_eq_head txEvents, ?_, ?_⟩
  · cases txEvents with
    | nil => rfl
    | cons a l => simp [IndexedDbWrapper.close, runCloseBarrier_eq_head]
  · refine ⟨[ .openTransaction (objectStoreName s.initialDbVersion),
      .addTxListener .abort, .addTxListener .complete,
      .addTxListener .error], rfl, by simp, ?_⟩
    intro sig
    cases sig <;> simp
  · cases txEvents with
    | nil => simp [IndexedDbWrapper.close, runCloseBarrier]
    | cons a l => simp [IndexedDbWrapper.close, runCloseBarrier_eq_head]
  · intro w' hw'
    cases txEvents with
    | nil => simp [IndexedDbWrapper.close, runCloseBarrier] at hw'
    | cons a l =>
      simp [IndexedDbWrapper.close, runCloseBarrier_eq_head] at hw'
      simp [← hw']

theorem close_barrier_correct_witness :
    (({ id := "idbw1",
        state := .opened (IndexedDbWrapperOpenedState.ofDb
          { name := databaseName, version := IDB_VERSION }) } :
      IndexedDbWrapper).close [TxSignal.complete]).2 ≠ none :=
  (close_barrier_correct
    { id := "idbw1",
      state := .opened (IndexedDbWrapperOpenedState.ofDb
        { name := databaseName, version := IDB_VERSION }) }
    (IndexedDbWrapperOpenedState.ofDb
      { name := databaseName, version := IDB_VERSION })
    rfl [TxSignal.complete]).2.2.2.1.mpr (by simp)

/-- C2: the session state transitions at most once and only Opened→Closed —
every step either leaves the state unchanged or moves an Opened state to
Closed; Closed is absorbing over any sequence of operations (irreversible);
and the Closed variant of the tagged sum holds no connection reference. -/
theorem state_transition_invariant :
    (∀ (st : IndexedDbWrapperState) (op : SessionOp),
        sessionStep st op = st ∨
          (∃ s, st = .opened s ∧ sessionStep st op = .closed)) ∧
    (∀ ops, sessionSteps .closed ops = .closed) ∧
    (∀ st ops, sessionSteps st ops = st ∨ sessionSteps st ops = .closed) ∧
    IndexedDbWrapperState.connection .closed = none :=
  ⟨sessionStep_id_or_closes, sessionSteps_closed,
   sessionSteps_id_or_closes, rfl⟩

/-- C3: `close()` is idempotent — on a session already in the Closed state it
performs no actions (no drain transaction is opened) and returns immediately
with the session unchanged; and after any `close()` call resolves, a second
`close()` call likewise performs no actions and returns immediately, so the
Close Barrier is never invoked twice. -/
theorem close_idempotent :
    (∀ (w : IndexedDbWrapper), w.state = .closed →
       ∀ txEvents, w.close txEvents = ([], some w)) ∧
    (∀ (w w' : IndexedDbWrapper) (txEvents txEvents' : List TxSignal),
       (w.close txEvents).2 = some w' →
       w'.close txEvents' = ([], some w')) := by
  have hclosed : ∀ (w : IndexedDbWrapper), w.state = .closed →
      ∀ txEvents, w.close txEvents = ([], some w) := by
    intro w hw txEvents
    obtain ⟨id, st⟩ := w
    simp only at hw
    subst hw
    rfl
  refine ⟨hclosed, ?_⟩
  intro w w' txEvents txEvents' h
  refine hclosed w' ?_ txEvents'
  obtain ⟨id, st⟩ := w
  cases st with
  | closed =>
    simp [IndexedDbWrapper.close] at h
    simp [← h]
  | opened s =>
    cases hb : runCloseBarrier txEvents with
    | none => simp [IndexedDbWrapper.close, hb] at h
    | some sig =>
      simp [IndexedDbWrapper.close, hb] at h
      simp [← h]

theorem close_idempotent_witness :
    (({ id := "idbw1", state := .closed } : IndexedDbWrapper).close []
      = ([], some { id := "idbw1", state := .closed })) ∧
    (({ id := "idbw2", state := .closed } : IndexedDbWrapper).close
        [TxSignal.complete]
      = ([], some { id := "idbw2", state := .closed })) :=
  ⟨close_idempotent.1 { id := "idbw1", state := .closed } rfl [],
   close_idempotent.2
     { id := "idbw2",
       state := .opened (IndexedDbWrapperOpenedState.ofDb
         { name := databaseName, version := IDB_VERSION }) }
     { id := "idbw2", state := .closed }
     [TxSignal.complete] [TxSignal.complete] rfl⟩

/-- C4: the promise returned by `close()` never rejects — its result type
carries no failure channel, and whenever the drain transaction delivers any
terminal outcome at all, `close()` resolves with the Closed session,
identically whether the first signal was `complete`, `error`, or `abort`. -/
theorem close_never_rejects (w : IndexedDbWrapper)
    (s : IndexedDbWrapperOpenedState) (hw : w.state = .opened s)
    (e1 e2 : List TxSignal) (h1 : e1 ≠ []) (h2 : e2 ≠ []) :
    (w.close e1).2 = some { w with state := .closed } ∧
    (w.close e1).2 = (w.close e2).2 := by
  obtain ⟨id, st⟩ := w
  simp only at hw
  subst hw
  obtain ⟨a, l, rfl⟩ := List.exists_cons_of_ne_nil h1
  obtain ⟨b, m, rfl⟩ := List.exists_cons_of_ne_nil h2
  constructor <;> simp [IndexedDbWrapper.close, runCloseBarrier_eq_head]

theorem close_never_rejects_witness :
    (({ id := "idbw1",
        state := .opened (IndexedDbWrapperOpenedState.ofDb
          { name := databaseName, version := IDB_VERSION }) } :
      IndexedDbWrapper).close [TxSignal.abort]).2
      = some { id := "idbw1", state := .closed } :=
  (close_never_rejects
    { id := "idbw1",
      state := .opened (IndexedDbWrapperOpenedState.ofDb
        { name := databaseName, version := IDB_VERSION }) }
    (IndexedDbWrapperOpenedState.ofDb
      { name := databaseName, version := IDB_VERSION })
    rfl [TxSignal.abort] [TxSignal.complete]
    (by simp) (by simp)).1

/-! Lemmas about the open protocol -/

theorem handleOpenSignal_settled_some (id : String) (r : OpenDbRun)
    (sig : OpenSignal) (v : Except DomError IndexedDbWrapper)
    (h : r.settled = some v) :
    (handleOpenSignal id r sig).settled = some v := by
  cases sig <;> simp [handleOpenSignal, settlePromise, h]

theorem foldl_settled_some (id : String) (signals : List OpenSignal)
    (r : OpenDbRun) (v : Except DomError IndexedDbWrapper)
    (h : r.settled = some v) :
    (signals.foldl (handleOpenSignal id) r).settled = some v := by
  induction signals generalizing r with
  | nil => exact h
  | cons a l ih =>
    exact ih (handleOpenSignal id r a) (handleOpenSignal_settled_some id r a v h)

theorem handleOpenSignal_constructed_no_success (id : String) (r : OpenDbRun)
    (sig : OpenSignal) (h : ∀ db, sig ≠ .success db) :
    (handleOpenSignal id r sig).sessionsConstructed
      = r.sessionsConstructed := by
  cases sig with
  | success db => exact absurd rfl (h db)
  | error e => simp [handleOpenSignal, settlePromise]; cases r.settled <;> simp
  | blocked o n => rfl
  | upgradeneeded db o n => rfl

theorem foldl_constructed_no_success (id : String) (signals : List OpenSignal)
    (r : OpenDbRun) (h : ∀ db, OpenSignal.success db ∉ signals) :
    (signals.foldl (handleOpenSignal id) r).sessionsConstructed
      = r.sessionsConstructed := by
  induction signals generalizing r with
  | nil => rfl
  | cons a l ih =>
    have ha : ∀ db, a ≠ OpenSignal.success db := by
      intro db hdb
      exact h db (hdb ▸ List.mem_cons_self a l)
    have hl : ∀ db, OpenSignal.success db ∉ l := by
      intro db hdb
      exact h db (List.mem_cons_of_mem a hdb)
    calc ((a :: l).foldl (handleOpenSignal id) r).sessionsConstructed
        = (l.foldl (handleOpenSignal id)
            (handleOpenSignal id r a)).sessionsConstructed := rfl
      _ = (handleOpenSignal id r a).sessionsConstructed := ih _ hl
      _ = r.sessionsConstructed :=
          handleOpenSignal_constructed_no_success id r a ha

theorem foldl_error_first (id : String) (signals : List OpenSignal)
    (e : DomError) (r : OpenDbRun) (hr : r.settled = none)
    (hfind : signals.find? OpenSignal.isTerminal = some (.error e)) :
    (signals.foldl (handleOpenSignal id) r).settled = some (.error e) := by
  induction signals generalizing r with
  | nil => simp [List.find?] at hfind
  | cons a l ih =>
    cases a with
    | error e' =>
      simp [List.find?, OpenSignal.isTerminal] at hfind
      subst hfind
      exact foldl_settled_some id l _ _ (by simp [handleOpenSignal, settlePromise, hr])
    | success db =>
      simp [List.find?, OpenSignal.isTerminal] at hfind
    | blocked o n =>
      simp [List.find?, OpenSignal.isTerminal] at hfind
      exact ih r hr hfind
    | upgradeneeded db o n =>
      simp [List.find?, OpenSignal.isTerminal] at hfind
      exact ih _ (by simp [handleOpenSignal, hr]) hfind

/-! Claims about the open protocol -/

/-- C5: the upgradeneeded handler creates exactly one container, named by
the deterministic function version ↦ `ost6hhg47t_` ++ version applied to the
version reported by the upgraded connection, and no other handler creates a container; in
the concrete scenario of opening at version 66 against an empty store (one
upgradeneeded event then success), exactly one container named for
version 66 is created and the resulting session is Opened with
`initialDbVersion = 66`. -/
theorem upgrade_creates_container :
    (∀ (id : String) (r : OpenDbRun) (db : IDBDatabase)
        (o : Nat) (n : Option Nat),
       (handleOpenSignal id r (.upgradeneeded db o n)).created
         = r.created ++ [objectStoreName db.version]) ∧
    (∀ (id : String) (r : OpenDbRun) (sig : OpenSignal),
       (∀ (db : IDBDatabase) (o : Nat) (n : Option Nat),
          sig ≠ .upgradeneeded db o n) →
       (handleOpenSignal id r sig).created = r.created) ∧
    objectStoreName IDB_VERSION = "ost6hhg47t_66" ∧
    (openDbRun "idbw1"
        [.upgradeneeded db66 0 (some IDB_VERSION), .success db66]
      = { settled := some (.ok { id := "idbw1", state := .opened { db := db66, initialDbVersion := IDB_VERSION } }),
          created := [objectStoreName IDB_VERSION],
          sessionsConstructed := 1 }) := by
  refine ⟨fun id r db o n => rfl, ?_, rfl, rfl⟩
  intro id r sig h
  cases sig with
  | upgradeneeded db o n => exact absurd rfl (h db o n)
  | error e => simp [handleOpenSignal, settlePromise]; cases r.settled <;> simp
  | success db => simp [handleOpenSignal, settlePromise]; cases r.settled <;> simp
  | blocked o n => rfl

theorem upgrade_creates_container_witness :
    (handleOpenSignal "idbw1" OpenDbRun.init
        (.blocked 0 (some IDB_VERSION))).created = OpenDbRun.init.created :=
  upgrade_creates_container.2.1 "idbw1" OpenDbRun.init
    (.blocked 0 (some IDB_VERSION)) (fun db o n h => by cases h)

/-- C6: the success handler, firing while the promise is pending, resolves
`open()` with a session in the Opened state whose `initialDbVersion` is the
version reported by the connection at that moment; `initialDbVersion` is fixed by
the Opened-state constructor and no session step ever alters it while the
session stays Opened. -/
theorem success_resolves_opened (id : String) (r : OpenDbRun)
    (db : IDBDatabase) (hr : r.settled = none) :
    (handleOpenSignal id r (.success db)).settled
      = some (.ok { id := id, state := .opened (IndexedDbWrapperOpenedState.ofDb db) }) ∧
    (IndexedDbWrapperOpenedState.ofDb db).initialDbVersion = db.version ∧
    (∀ (s s' : IndexedDbWrapperOpenedState) (op : SessionOp),
       sessionStep (.opened s) op = .opened s' → s' = s) := by
  refine ⟨by simp [handleOpenSignal, settlePromise, IndexedDbWrapper.new, hr],
    rfl, ?_⟩
  intro s s' op h
  cases op with
  | dbEvent e =>
    simp [sessionStep, handleDbEvent] at h
    exact h.symm
  | closeCall txEvents =>
    cases hb : runCloseBarrier txEvents with
    | none =>
      simp [sessionStep, IndexedDbWrapper.close, hb] at h
      exact h.symm
    | some sig =>
      simp [sessionStep, IndexedDbWrapper.close, hb] at h

theorem success_resolves_opened_witness :
    (handleOpenSignal "idbw1" OpenDbRun.init (.success db66)).settled
      = some (.ok { id := "idbw1", state := .opened (IndexedDbWrapperOpenedState.ofDb db66) }) :=
  (success_resolves_opened "idbw1" OpenDbRun.init db66 rfl).1

/-- C7: if the first terminal signal of the open request is `error` (and no
success signal ever fires on that path), `open()` rejects with that error
object and no `IndexedDbWrapper` session is ever constructed. -/
theorem open_error_rejects (id : String) (signals : List OpenSignal)
    (e : DomError)
    (hfirst : signals.find? OpenSignal.isTerminal = some (.error e))
    (hnosucc : ∀ db, OpenSignal.success db ∉ signals) :
    (openDbRun id signals).settled = some (.error e) ∧
    (openDbRun id signals).sessionsConstructed = 0 := by
  constructor
  · exact foldl_error_first id signals e OpenDbRun.init rfl hfirst
  · exact foldl_constructed_no_success id signals OpenDbRun.init hnosucc

theorem open_error_rejects_witness :
    (openDbRun "idbw1"
        [.blocked 67 (some IDB_VERSION), .error versionError]).settled
      = some (.error versionError) :=
  (open_error_rejects "idbw1"
    [.blocked 67 (some IDB_VERSION), .error versionError] versionError
    rfl (by intro db; simp)).1

/-- C8: the promise returned by `open()` settles exactly once — once
settled, no later signal changes it; the `blocked` handler leaves the whole
run state untouched (logs only, keeps waiting, no remediation) and the
upgradeneeded handler never settles the promise; any signal that does settle
the promise settles it from the pending state, and is either `error`
(rejecting with that error) or `success` (resolving with the constructed
wrapper). -/
theorem open_settles_once :
    (∀ (id : String) (r : OpenDbRun) (sig : OpenSignal)
        (v : Except DomError IndexedDbWrapper),
       r.settled = some v → (handleOpenSignal id r sig).settled = some v) ∧
    (∀ (id : String) (r : OpenDbRun) (o : Nat) (n : Option Nat),
       handleOpenSignal id r (.blocked o n) = r) ∧
    (∀ (id : String) (r : OpenDbRun) (db : IDBDatabase)
        (o : Nat) (n : Option Nat),
       (handleOpenSignal id r (.upgradeneeded db o n)).settled = r.settled) ∧
    (∀ (id : String) (r : OpenDbRun) (sig : OpenSignal),
       (handleOpenSignal id r sig).settled ≠ r.settled →
       r.settled = none ∧
       ((∃ e, sig = .error e ∧
           (handleOpenSignal id r sig).settled = some (.error e)) ∨
        (∃ db, sig = .success db ∧
           (handleOpenSignal id r sig).settled
             = some (.ok (IndexedDbWrapper.new id db).1)))) := by
  refine ⟨handleOpenSignal_settled_some, fun id r o n => rfl,
    fun id r db o n => rfl, ?_⟩
  intro id r sig h
  cases hr : r.settled with
  | some v =>
    exact absurd (handleOpenSignal_settled_some id r sig v hr) (hr ▸ h)
  | none =>
    refine ⟨rfl, ?_⟩
    cases sig with
    | error e =>
      exact Or.inl ⟨e, rfl, by simp [handleOpenSignal, settlePromise, hr]⟩
    | success db =>
      exact Or.inr ⟨db, rfl, by simp [handleOpenSignal, settlePromise, hr]⟩
    | blocked o n => exact absurd rfl h
    | upgradeneeded db o n => exact absurd rfl h

theorem open_settles_once_witness :
    (handleOpenSignal "idbw1"
        { settled := some (.error versionError), created := [], sessionsConstructed := 0 }
        (.success db66)).settled
      = some (.error versionError) :=
  open_settles_once.1 "idbw1"
    { settled := some (.error versionError), created := [], sessionsConstructed := 0 }
    (.success db66) (.error versionError) rfl

/-- C9: the session constructor registers listeners for exactly the four
connection-level events `error`, `close`, `abort`, `versionchange`, every
such event is covered, and the handler for each event only emits one log line —
the session state is returned unchanged and no failure is raised (the type
of the handler has no failure channel). -/
theorem connection_events_logged_only :
    (∀ (id : String) (db : IDBDatabase),
       (IndexedDbWrapper.new id db).2
         = [DbEvent.error, DbEvent.close, DbEvent.abort,
            DbEvent.versionchange]) ∧
    (∀ (e : DbEvent) (id : String) (db : IDBDatabase),
       e ∈ (IndexedDbWrapper.new id db).2) ∧
    (∀ (st : IndexedDbWrapperState) (e : DbEvent),
       (handleDbEvent st e).1 = st ∧
       (handleDbEvent st e).2 = [dbEventLogLine e]) := by
  refine ⟨fun id db => rfl, ?_, fun st e => ⟨rfl, rfl⟩⟩
  intro e id db
  cases e <;> simp [IndexedDbWrapper.new]

/-- C10: in every run of the Test Driver, `close()` is called at most once,
only after `open()` has resolved successfully (the `openResolved` action
strictly precedes the `closeCall` action in the trace), and when `open()`
rejects the driver propagates the error and never calls `close()`. -/
theorem driver_close_after_open :
    (∀ outcome, ((runTheTest outcome).1.count DriverAction.closeCall) ≤ 1) ∧
    (∀ e : DomError,
       runTheTest (.error e) = ([DriverAction.openCall], some e) ∧
       DriverAction.closeCall ∉ (runTheTest (.error e)).1) ∧
    (∀ w : IndexedDbWrapper,
       (runTheTest (.ok w)).1
         = [DriverAction.openCall, DriverAction.openResolved,
            DriverAction.awaitAbortSignal, DriverAction.closeCall,
            DriverAction.closeResolved] ∧
       (runTheTest (.ok w)).1.indexOf DriverAction.openResolved
         < (runTheTest (.ok w)).1.indexOf DriverAction.closeCall) := by
  refine ⟨?_, ?_, ?_⟩
  · intro outcome
    cases outcome <;> simp only [runTheTest] <;> decide
  · intro e
    refine ⟨rfl, ?_⟩
    simp [runTheTest]
  · intro w
    refine ⟨rfl, ?_⟩
    simp only [runTheTest]
    decide
